import Mathlib

/-!
# Verification of the gradio output-component value-transformation pipeline

Shallow embedding of `gradio/outputs.py` (the `postprocess` / `rebuild`
transformations of the output components Textbox, Label, Image, KeyValues,
Audio, JSON and Dataframe) together with theorems settling the specification
claims about them.

Modelling conventions:
* Python values handed to a `postprocess` method are modelled per component by
  a small inductive type whose constructors are the runtime shapes the code
  distinguishes with `isinstance` tests, plus a constructor for values of any
  other shape.
* A call that raises a Python exception is modelled by `Except PyError _`;
  `PyError` distinguishes the exception classes the code can raise
  (`ValueError` with an exact message string, `IndexError`,
  `UnboundLocalError`, `AttributeError`, `TypeError`).
* Numeric scores are modelled as exact rationals `ℚ`; Python's `str()`
  rendering of a number is abstracted by `pyNumStr` (its exact output never
  matters to a claim, only that the result is a string).
* The external encoding utilities (`processing_utils.encode_array_to_base64`,
  `encode_file_to_base64`, `encode_plot_to_base64`, `decode_base64_to_image`)
  are external collaborators; their results are modelled as opaque tagged wire
  values (injective constructors applied to their argument).
* Python's builtin `sorted` (a stable sort) with `key=itemgetter(1),
  reverse=True` is modelled by `List.insertionSort` with the relation
  `fun a b => b.2 ≤ a.2`, which is extensionally the unique stable descending
  sort by score.
* `dict`s are modelled as association lists in iteration (= insertion) order.
-/

namespace Gradio

/-- Python exception classes raised by the embedded code paths.
`valueError` carries the exact message string built by the source. -/
inductive PyError where
  | valueError (msg : String)
  | indexError
  | unboundLocalError (var : String)
  | attributeError (attr : String)
  | typeError (msg : String)
  deriving DecidableEq, Repr

instance exceptDecEq {ε α : Type} [DecidableEq ε] [DecidableEq α] :
    DecidableEq (Except ε α)
  | .ok a, .ok b =>
    if h : a = b then .isTrue (congrArg Except.ok h)
    else .isFalse (fun he => h (Except.ok.inj he))
  | .error a, .error b =>
    if h : a = b then .isTrue (congrArg Except.error h)
    else .isFalse (fun he => h (Except.error.inj he))
  | .ok _, .error _ => .isFalse (fun he => Except.noConfusion he)
  | .error _, .ok _ => .isFalse (fun he => Except.noConfusion he)

/-- Python `str()` of an integer, as used for rendering numbers. -/
def pyIntStr (n : Int) : String := toString n

/-- Python `str()` of a number.  Scores are modelled as exact rationals, so
the decimal rendering of a Python float is abstracted by the canonical
rational rendering; no claim depends on the exact digits, only on the result
being a string. -/
def pyNumStr (q : ℚ) : String :=
  if q.den = 1 then pyIntStr q.num else pyIntStr q.num ++ "/" ++ toString q.den

/-! ## Textbox (`outputs.py` lines 28-62) -/

/-- Runtime shapes accepted by `Textbox.postprocess`: `Union[str, float, int]`.
The same type doubles as the wire value (the code passes values through or
stringifies them). -/
inductive TextValue where
  | str (s : String)
  | num (q : ℚ)
  deriving DecidableEq, Repr

/-- Python `str(y)` for a Textbox value. -/
def TextValue.pyStr : TextValue → String
  | .str s => s
  | .num q => pyNumStr q

/-- `Textbox.postprocess` (`outputs.py` lines 56-62):
```python
if self.type == "str" or self.type == "auto":
    return y
elif self.type == "number":
    return str(y)
else:
    raise ValueError("Unknown type: " + self.type + ". Please choose from: 'str', 'number'")
``` -/
def textboxUnknownTypeMsg (type : String) : String :=
  "Unknown type: " ++ type ++ ". Please choose from: 'str', 'number'"

def Textbox.postprocess (type : String) (y : TextValue) : Except PyError TextValue :=
  if type == "str" || type == "auto" then
    .ok y
  else if type == "number" then
    .ok (.str y.pyStr)
  else
    .error (.valueError (textboxUnknownTypeMsg type))

/-! ## Label (`outputs.py` lines 65-121) -/

/-- Runtime shapes accepted by `Label.postprocess`:
`Union[Dict[str, float], str, int, float]`.  A `dict` is an association list
in iteration order; `other` stands for a value of any further shape. -/
inductive LabelValue where
  | str (s : String)
  | num (q : ℚ)
  | dict (m : List (String × ℚ))
  | other (o : String)
  deriving DecidableEq, Repr

/-- `isinstance(y, str) or isinstance(y, Number)`. -/
def LabelValue.isScalar : LabelValue → Bool
  | .str _ | .num _ => true
  | _ => false

/-- `isinstance(y, dict)`. -/
def LabelValue.isDict : LabelValue → Bool
  | .dict _ => true
  | _ => false

/-- Python's `str({...})` repr of a dict, used only when an explicit
`type="label"` is combined with a dict value (a path no claim exercises);
rendering of the braces and entries is abstracted but deterministic. -/
def pyDictRepr (m : List (String × ℚ)) : String :=
  "\x7b" ++ String.intercalate ", "
    (m.map fun p => "'" ++ p.1 ++ "': " ++ pyNumStr p.2) ++ "\x7d"

/-- Python `str(y)` for a Label value. -/
def LabelValue.pyStr : LabelValue → String
  | .str s => s
  | .num q => pyNumStr q
  | .dict m => pyDictRepr m
  | .other o => o

/-- Wire values produced by `Label.postprocess`:
either `{"label": s}` or `{"label": top, "confidences": [{"label": l,
"confidence": c}, ...]}`. -/
inductive LabelWire where
  | label (s : String)
  | confidences (top : String) (confs : List (String × ℚ))
  deriving DecidableEq, Repr

/-- Comparator modelling `sorted(..., key=operator.itemgetter(1), reverse=True)`:
entry `a` may come before `b` exactly when `b`'s score is at most `a`'s. -/
def scoreDesc (a b : String × ℚ) : Prop := b.2 ≤ a.2

instance : DecidableRel scoreDesc := fun a b => inferInstanceAs (Decidable (b.2 ≤ a.2))

instance : IsTotal (String × ℚ) scoreDesc := ⟨fun a b => le_total b.2 a.2⟩

instance : IsTrans (String × ℚ) scoreDesc := ⟨fun _ _ _ h h2 => le_trans h2 h⟩

/-- The exact message of the `ValueError` raised by `Label.postprocess` for an
unsupported value shape or an unknown explicit type. -/
def labelShapeErrorMsg : String :=
  "The `Label` output interface expects one of: a string label, or an int label, a float label, or a dictionary whose keys are labels and values are confidences."

/-- `Label.postprocess` (`outputs.py` lines 86-108):
```python
if self.type == "label" or (self.type == "auto" and (isinstance(y, str) or isinstance(y, Number))):
    return {self.LABEL_KEY: str(y)}
elif self.type == "confidences" or (self.type == "auto" and isinstance(y, dict)):
    sorted_pred = sorted(y.items(), key=operator.itemgetter(1), reverse=True)
    if self.num_top_classes is not None:
        sorted_pred = sorted_pred[:self.num_top_classes]
    return {self.LABEL_KEY: sorted_pred[0][0],
            self.CONFIDENCES_KEY: [{self.LABEL_KEY: pred[0], self.CONFIDENCE_KEY: pred[1]}
                                   for pred in sorted_pred]}
else:
    raise ValueError(...)
```
`sorted_pred[0]` on an empty list raises `IndexError`; `y.items()` on a
non-dict raises `AttributeError`.  The body of the `confidences` branch is
factored out as `labelConfidencesBranch`. -/
def labelConfidencesBranch (numTopClasses : Option Nat) (m : List (String × ℚ)) :
    Except PyError LabelWire :=
  match (match numTopClasses with
         | some k => (List.insertionSort scoreDesc m).take k
         | none => List.insertionSort scoreDesc m) with
  | [] => .error .indexError
  | top :: rest => .ok (.confidences top.1 (top :: rest))

def Label.postprocess (numTopClasses : Option Nat) (type : String) (y : LabelValue) :
    Except PyError LabelWire :=
  if type == "label" || (type == "auto" && y.isScalar) then
    .ok (.label y.pyStr)
  else if type == "confidences" || (type == "auto" && y.isDict) then
    match y with
    | .dict m => labelConfidencesBranch numTopClasses m
    | _ => .error (.attributeError "items")
  else
    .error (.valueError labelShapeErrorMsg)

/-- Specification-side description of the claim's "key of `m` with the maximal
score (first such key in iteration order on ties)": scan the list keeping the
earliest entry whose score is maximal. -/
def firstMaxEntry : List (String × ℚ) → Option (String × ℚ)
  | [] => none
  | p :: rest =>
    match firstMaxEntry rest with
    | none => some p
    | some q => if q.2 > p.2 then some q else some p

/-! ## Image (`outputs.py` lines 123-183) -/

/-- A numpy array as far as `Image.postprocess` can observe it: either an
array the caller handed in (abstracted by an identifier), or the result of
`np.array(...)` applied to a PIL image or to a value of some other shape
(external numpy conversion, abstracted by a tag). -/
inductive NpArr where
  | raw (id : Nat)
  | ofPil (id : Nat)
  | ofOther (tag : String)
  deriving DecidableEq, Repr

/-- Runtime shapes accepted by `Image.postprocess`:
`Union[numpy.array, PIL.Image, str, matplotlib.pyplot]`; `otherVal` stands for
a value matching none of the `isinstance` tests. -/
inductive ImageValue where
  | ndarray (a : NpArr)
  | pilImage (id : Nat)
  | strVal (s : String)
  | moduleVal (m : String)
  | otherVal (o : String)
  deriving DecidableEq, Repr

/-- `np.array(y)` as applied in the `"pil"` branch (external numpy
collaborator; conversion of non-image shapes is abstracted by a tag). -/
def npArrayOf : ImageValue → NpArr
  | .ndarray a => a
  | .pilImage i => .ofPil i
  | .strVal s => .ofOther s
  | .moduleVal m => .ofOther m
  | .otherVal o => .ofOther o

/-- Wire values produced by `Image.postprocess`: the three external encoders
applied to the (possibly pil-converted) value, modelled as opaque injective
constructors. -/
inductive ImageWire where
  | encodedArray (v : ImageValue)
  | encodedFile (v : ImageValue)
  | encodedPlot (v : ImageValue)
  deriving DecidableEq, Repr

/-- `Image.postprocess` (`outputs.py` lines 151-172):
```python
if self.type == "auto":
    if isinstance(y, np.ndarray):
        dtype = "numpy"
    elif isinstance(y, PIL.Image.Image):
        dtype = "pil"
    elif isinstance(y, str):
        dtype = "file"
    elif isinstance(y, ModuleType):
        dtype = "plot"
else:
    dtype = self.type
if dtype in ["numpy", "pil"]:
    if dtype == "pil":
        y = np.array(y)
    return processing_utils.encode_array_to_base64(y)
elif dtype == "file":
    return processing_utils.encode_file_to_base64(y)
elif dtype == "plot":
    return processing_utils.encode_plot_to_base64(y)
else:
    raise ValueError("Unknown type: " + dtype + ". Please choose from: 'numpy', 'pil', 'file', 'plot'.")
```
When `type == "auto"` and no `isinstance` test matches, `dtype` is never
assigned and the first read raises `UnboundLocalError`. -/
def imageUnknownTypeMsg (dtype : String) : String :=
  "Unknown type: " ++ dtype ++ ". Please choose from: 'numpy', 'pil', 'file', 'plot'."

def Image.postprocess (type : String) (y : ImageValue) : Except PyError ImageWire :=
  let dtypeAssigned : Option String :=
    if type == "auto" then
      match y with
      | .ndarray _ => some "numpy"
      | .pilImage _ => some "pil"
      | .strVal _ => some "file"
      | .moduleVal _ => some "plot"
      | .otherVal _ => none
    else
      some type
  match dtypeAssigned with
  | none => .error (.unboundLocalError "dtype")
  | some dtype =>
    if dtype == "numpy" || dtype == "pil" then
      let y := if dtype == "pil" then ImageValue.ndarray (npArrayOf y) else y
      .ok (.encodedArray y)
    else if dtype == "file" then
      .ok (.encodedFile y)
    else if dtype == "plot" then
      .ok (.encodedPlot y)
    else
      .error (.valueError (imageUnknownTypeMsg dtype))

/-- A decoded image: the result of the external
`processing_utils.decode_base64_to_image` on a base64 payload. -/
inductive DecodedImage where
  | ofBase64 (data : String)
  deriving DecidableEq, Repr

/-- The file written by `im.save(...)` in `Image.rebuild`: its path, the
format string handed to PIL and the image content written. -/
structure SavedFile where
  path : String
  format : String
  content : DecodedImage
  deriving DecidableEq, Repr

/-- A wall-clock timestamp at second precision, the observation of
`datetime.datetime.now()` made by `Image.rebuild` (modelled as an explicit
parameter of the call). -/
structure Timestamp where
  year : Nat
  month : Nat
  day : Nat
  hour : Nat
  minute : Nat
  second : Nat
  deriving DecidableEq, Repr

/-- Zero-padding to two digits, as `strftime` does for `%m %d %H %M %S`. -/
def pad2 (n : Nat) : String :=
  if n < 10 then "0" ++ toString n else toString n

/-- Zero-padding to four digits, as `strftime` does for `%Y`. -/
def pad4 (n : Nat) : String :=
  if n < 10 then "000" ++ toString n
  else if n < 100 then "00" ++ toString n
  else if n < 1000 then "0" ++ toString n
  else toString n

/-- `timestamp.strftime("%Y-%m-%d-%H-%M-%S")`. -/
def strftimeYmdHMS (t : Timestamp) : String :=
  pad4 t.year ++ "-" ++ pad2 t.month ++ "-" ++ pad2 t.day ++ "-" ++
    pad2 t.hour ++ "-" ++ pad2 t.minute ++ "-" ++ pad2 t.second

/-- `Image.rebuild` (`outputs.py` lines 174-183):
```python
im = processing_utils.decode_base64_to_image(data)
timestamp = datetime.datetime.now()
filename = 'output_{}.png'.format(timestamp.strftime("%Y-%m-%d-%H-%M-%S"))
im.save('{}/{}'.format(dir, filename), 'PNG')
return filename
```
Returns the file written (the side effect) together with the returned
filename; `datetime.datetime.now()` is the explicit parameter `now`. -/
def Image.rebuild (dir : String) (data : String) (now : Timestamp) :
    SavedFile × String :=
  let im := DecodedImage.ofBase64 data
  let filename := "output_" ++ strftimeYmdHMS now ++ ".png"
  ({ path := dir ++ "/" ++ filename, format := "PNG", content := im }, filename)

/-! ## KeyValues (`outputs.py` lines 185-211) -/

/-- A scalar Python value usable as a KeyValues value
(`Union[str, int, float]`). -/
inductive PyAtom where
  | s (v : String)
  | n (q : ℚ)
  deriving DecidableEq, Repr

/-- Runtime shapes given to `KeyValues.postprocess`:
`Union[Dict, List[Tuple[str, ...]]]`; `other` is any value of neither shape. -/
inductive KVValue where
  | dict (m : List (String × PyAtom))
  | list (l : List (String × PyAtom))
  | other (o : String)
  deriving DecidableEq, Repr

/-- The exact `ValueError` message of `KeyValues.postprocess`. -/
def kvErrorMsg : String :=
  "The `KeyValues` output interface expects an output that is a dictionary whose keys are labels and values are corresponding values."

/-- `KeyValues.postprocess` (`outputs.py` lines 198-205):
```python
if isinstance(y, dict):
    return list(y.items())
elif isinstance(y, list):
    return y
else:
    raise ValueError(...)
``` -/
def KeyValues.postprocess (y : KVValue) : Except PyError (List (String × PyAtom)) :=
  match y with
  | .dict m => .ok m
  | .list l => .ok l
  | .other _ => .error (.valueError kvErrorMsg)

/-! ## Audio (`outputs.py` lines 246-280) -/

/-- Runtime shapes given to `Audio.postprocess`:
`Union[Tuple[int, numpy.array], str]`; `other` is any further shape. -/
inductive AudioValue where
  | tuple (sampleRate : Int) (samples : Nat)
  | strPath (s : String)
  | other (o : String)
  deriving DecidableEq, Repr

/-- `isinstance(y, tuple)`. -/
def AudioValue.isTuple : AudioValue → Bool
  | .tuple _ _ => true
  | _ => false

/-- Wire value of `Audio.postprocess`: the external
`encode_file_to_base64(y, type="audio", ext="wav")` applied to the final
value of `y` (the original value, or the temp-file path on the numpy path). -/
inductive AudioWire where
  | encodedFile (v : AudioValue) (type : String) (ext : String)
  deriving DecidableEq, Repr

/-- Observable file-handling events of one `Audio.postprocess` call, used to
state the scoped-cleanup claim.  The source never emits `closeTempFile` /
`deleteTempFile`; the constructors exist so their absence can be stated. -/
inductive AudioEvent where
  | acquireTempFile (name : String)
  | writeWavTo (name : String)
  | writeWavRaised (name : String)
  | closeTempFile (name : String)
  | deleteTempFile (name : String)
  | encodeOk
  | encodeRaised
  deriving DecidableEq, Repr

/-- Is this event a close/delete of the temporary file? -/
def AudioEvent.isCleanup : AudioEvent → Bool
  | .closeTempFile _ | .deleteTempFile _ => true
  | _ => false

/-- `Audio.postprocess` (`outputs.py` lines 272-280):
```python
if self.type in ["numpy", "file", "auto"]:
    if self.type == "numpy" or (self.type == "auto" and isinstance(y, tuple)):
        file = tempfile.NamedTemporaryFile()
        scipy.io.wavfile.write(file, y[0], y[1])
        y = file.name
    return processing_utils.encode_file_to_base64(y, type="audio", ext="wav")
else:
    raise ValueError("Unknown type: " + self.type + ". Please choose from: 'numpy', 'file'.")
```
The result is paired with the trace of file-handling events of the call.
`tmpName` is the fresh name chosen by `tempfile.NamedTemporaryFile` (supplied
by the environment); `encodeRaises` selects the run in which the external
base64-encoding step raises.  `scipy.io.wavfile.write` on a non-tuple value
fails inside scipy (abstracted as a `TypeError`); no claim exercises that
path.  Note that no event ever closes or deletes the temporary file: the
source holds the handle in a local variable and leaves reclamation to the
interpreter's finalizer. -/
def audioUnknownTypeMsg (type : String) : String :=
  "Unknown type: " ++ type ++ ". Please choose from: 'numpy', 'file'."

def Audio.postprocessTr (type : String) (y : AudioValue) (tmpName : String)
    (encodeRaises : Bool) : Except PyError AudioWire × List AudioEvent :=
  if type == "numpy" || type == "file" || type == "auto" then
    if type == "numpy" || (type == "auto" && y.isTuple) then
      match y with
      | .tuple _ _ =>
        if encodeRaises then
          (.error (.valueError "base64 encoding failed"),
            [.acquireTempFile tmpName, .writeWavTo tmpName, .encodeRaised])
        else
          (.ok (.encodedFile (.strPath tmpName) "audio" "wav"),
            [.acquireTempFile tmpName, .writeWavTo tmpName, .encodeOk])
      | _ =>
        (.error (.typeError "scipy.io.wavfile.write: unsupported value"),
          [.acquireTempFile tmpName, .writeWavRaised tmpName])
    else
      if encodeRaises then
        (.error (.valueError "base64 encoding failed"), [.encodeRaised])
      else
        (.ok (.encodedFile y "audio" "wav"), [.encodeOk])
  else
    (.error (.valueError (audioUnknownTypeMsg type)), [])

/-- The wire result of `Audio.postprocess` alone (the non-raising run). -/
def Audio.postprocess (type : String) (y : AudioValue) (tmpName : String) :
    Except PyError AudioWire :=
  (Audio.postprocessTr type y tmpName false).1

/-! ## JSON (`outputs.py` lines 283-300) -/

/-- Input (and wire) values of `JSON.postprocess`: a string, or any other
JSON-serializable object (opaque). -/
inductive JsonValue where
  | str (s : String)
  | other (tag : Nat)
  deriving DecidableEq, Repr

/-- Lower-case hex digit of a value below 16. -/
def hexDigit (n : Nat) : Char :=
  if n < 10 then Char.ofNat (48 + n) else Char.ofNat (87 + n)

/-- Four lower-case hex digits of a value below `0x10000`, as in a JSON
`\uXXXX` escape. -/
def hex4 (n : Nat) : List Char :=
  [hexDigit (n / 4096 % 16), hexDigit (n / 256 % 16),
   hexDigit (n / 16 % 16), hexDigit (n % 16)]

/-- The escape sequence Python's `json.dumps` (default `ensure_ascii=True`)
emits for one character: short escapes for `"` `\` and the named control
characters, `\uXXXX` for other controls, for DEL and for non-ASCII characters
up to `0xffff`, a UTF-16 surrogate pair `\uXXXX\uXXXX` beyond that, and the
character itself for printable ASCII. -/
def jsonEscapeChar (c : Char) : List Char :=
  if c = '"' then ['\\', '"']
  else if c = '\\' then ['\\', '\\']
  else if c = '\n' then ['\\', 'n']
  else if c = '\t' then ['\\', 't']
  else if c = '\r' then ['\\', 'r']
  else if c.toNat = 8 then ['\\', 'b']
  else if c.toNat = 12 then ['\\', 'f']
  else if 32 ≤ c.toNat ∧ c.toNat ≤ 126 then [c]
  else if c.toNat < 65536 then '\\' :: 'u' :: hex4 c.toNat
  else
    '\\' :: 'u' :: hex4 (55296 + (c.toNat - 65536) / 1024) ++
      ('\\' :: 'u' :: hex4 (56320 + (c.toNat - 65536) % 1024))

/-- The interior (between the enclosing quotes) of the JSON string literal
for the characters `l`. -/
def jsonEscapeBody : List Char → List Char
  | [] => []
  | c :: rest => jsonEscapeChar c ++ jsonEscapeBody rest

/-- `json.dumps(s)` for a string `s`: the enclosing double quotes around the
escaped body. -/
def jsonDumpsStr (s : String) : String :=
  ⟨'"' :: jsonEscapeBody s.data ++ ['"']⟩

/-- `JSON.postprocess` (`outputs.py` lines 296-300):
```python
if isinstance(y, str):
    return json.dumps(y)
else:
    return y
``` -/
def JSON.postprocess (y : JsonValue) : JsonValue :=
  match y with
  | .str s => .str (jsonDumpsStr s)
  | .other t => .other t

/-- Value of a lower-case hex digit character, if it is one. -/
def hexDigitVal (c : Char) : Option Nat :=
  if 48 ≤ c.toNat ∧ c.toNat ≤ 57 then some (c.toNat - 48)
  else if 97 ≤ c.toNat ∧ c.toNat ≤ 102 then some (c.toNat - 87)
  else none

/-- Value of four hex digit characters. -/
def hex4Val (h1 h2 h3 h4 : Char) : Option Nat :=
  match hexDigitVal h1, hexDigitVal h2, hexDigitVal h3, hexDigitVal h4 with
  | some a, some b, some c, some d => some (a * 4096 + b * 256 + c * 16 + d)
  | _, _, _, _ => none

/-- The character encoded by a short escape `\c`, if `c` is a short escape
letter. -/
def jsonShortUnescape (c : Char) : Option Char :=
  if c = '"' then some '"'
  else if c = '\\' then some '\\'
  else if c = '/' then some '/'
  else if c = 'n' then some '\n'
  else if c = 't' then some '\t'
  else if c = 'r' then some '\r'
  else if c = 'b' then some (Char.ofNat 8)
  else if c = 'f' then some (Char.ofNat 12)
  else none

/-- Read exactly four hex digits, returning their value and the remaining
input. -/
def jsonParseHex4 : List Char → Option (Nat × List Char)
  | a :: b :: c :: d :: rest => (hex4Val a b c d).map (fun v => (v, rest))
  | _ => none

/-- After a high surrogate `\uXXXX`, expect a second `\u` and read its four
hex digits. -/
def jsonParseLowSurrogate : List Char → Option (Nat × List Char)
  | b1 :: u2 :: rest2 =>
    if b1 = '\\' ∧ u2 = 'u' then jsonParseHex4 rest2 else none
  | _ => none

/-- Decode the payload of a `\u` escape starting right after the `\u`:
a plain BMP scalar, or a high surrogate that must be followed by a second
`\uXXXX` low surrogate, recombined into one code point. -/
def jsonParseUHex (l : List Char) : Option (Char × List Char) :=
  match jsonParseHex4 l with
  | none => none
  | some (v, rest) =>
    if 55296 ≤ v ∧ v < 56320 then
      match jsonParseLowSurrogate rest with
      | some (w, rest3) =>
        if 56320 ≤ w ∧ w < 57344 then
          some (Char.ofNat ((v - 55296) * 1024 + (w - 56320) + 65536), rest3)
        else none
      | none => none
    else if 56320 ≤ v ∧ v < 57344 then none
    else some (Char.ofNat v, rest)

/-- Decode one escape sequence starting right after the backslash. -/
def jsonParseEsc : List Char → Option (Char × List Char)
  | [] => none
  | e :: rest =>
    if e = 'u' then jsonParseUHex rest
    else
      match jsonShortUnescape e with
      | some d => some (d, rest)
      | none => none

/-- Decode one character unit of a JSON string literal body: an escape
sequence or a raw character; the closing quote is not a unit. -/
def jsonParseUnit : List Char → Option (Char × List Char)
  | [] => none
  | c :: rest =>
    if c = '"' then none
    else if c = '\\' then jsonParseEsc rest
    else some (c, rest)

/-- Decoder loop for the body of a JSON string literal: consume one unit at
a time up to a closing `"` which must end the input; `none` on malformed
input.  Each unit consumes at least one input character, so any fuel
exceeding the input length never runs out. -/
def jsonDecodeBodyGo : Nat → List Char → Option (List Char)
  | 0, _ => none
  | fuel + 1, l =>
    match l with
    | [] => none
    | c :: rest =>
      if c = '"' then
        if rest.isEmpty then some [] else none
      else
        match jsonParseUnit (c :: rest) with
        | none => none
        | some (d, rem) => (jsonDecodeBodyGo fuel rem).map (d :: ·)

/-- Decoder for the body of a JSON string literal (specification-side
witness that `jsonDumpsStr` produces a decodable string literal). -/
def jsonDecodeBody (l : List Char) : Option (List Char) :=
  jsonDecodeBodyGo (l.length + 1) l

/-- Decode a full JSON string literal back to the string it denotes. -/
def jsonDecodeStringLit (s : String) : Option String :=
  match s.data with
  | '"' :: rest => (jsonDecodeBody rest).map (fun l => ⟨l⟩)
  | _ => none

/-! ## Dataframe (`outputs.py` lines 359-411) -/

/-- One cell of a Python list handed to `Dataframe.postprocess`: a scalar or
a nested list (the code only ever tests `isinstance(y[0], list)`). -/
inductive Cell where
  | s (v : String)
  | n (q : ℚ)
  | lst (l : List Cell)

/-- `isinstance(c, list)`. -/
def Cell.isLst : Cell → Bool
  | .lst _ => true
  | _ => false

/-- Runtime shapes accepted by `Dataframe.postprocess`:
`Union[pandas.DataFrame, numpy.array, List[...]]`.  A pandas frame is its
column names and row-major data; an ndarray is abstracted by its `tolist()`
image; `other` is a value of none of these shapes. -/
inductive DfValue where
  | pandas (headers : List String) (data : List (List Cell))
  | ndarray (data : List Cell)
  | list (data : List Cell)
  | other (o : String)

/-- Wire values of `Dataframe.postprocess`:
`{"headers": ..., "data": ...}` on the pandas path, `{"data": ...}` on the
numpy/array path. -/
inductive DfWire where
  | table (headers : List String) (data : List (List Cell))
  | dataOnly (data : List Cell)

/-- `Dataframe.postprocess` (`outputs.py` lines 392-411):
```python
if self.type == "auto":
    if isinstance(y, pd.core.frame.DataFrame):
        dtype = "pandas"
    elif isinstance(y, np.ndarray):
        dtype = "numpy"
    elif isinstance(y, list):
        dtype = "array"
else:
    dtype = self.type
if dtype == "pandas":
    return {"headers": list(y.columns), "data": y.values.tolist()}
elif dtype in ("numpy", "array"):
    if dtype == "numpy":
        y = y.tolist()
    if len(y) == 0 or not isinstance(y[0], list):
        y = [y]
    return {"data": y}
else:
    raise ValueError("Unknown type: " + self.type + ". Please choose from: 'pandas', 'numpy', 'array'.")
```
As for `Image`, an unmatched shape under `"auto"` leaves `dtype` unassigned,
so the first read raises `UnboundLocalError`.  `y.columns` on a non-frame and
`y.tolist()` on a plain list raise `AttributeError`; `len(y)` / `y[0]` on a
non-sequence raise `TypeError` (externally, abstracted).  On the `"array"`
path an ndarray row is not a Python `list`, so the `isinstance(y[0], list)`
test is false for an ndarray value and the wrap always fires.  Note the
message interpolates `self.type`, not the local `dtype`. -/
def dataframeUnknownTypeMsg (type : String) : String :=
  "Unknown type: " ++ type ++ ". Please choose from: 'pandas', 'numpy', 'array'."

def Dataframe.postprocess (type : String) (y : DfValue) : Except PyError DfWire :=
  let dtypeAssigned : Option String :=
    if type == "auto" then
      match y with
      | .pandas _ _ => some "pandas"
      | .ndarray _ => some "numpy"
      | .list _ => some "array"
      | .other _ => none
    else
      some type
  match dtypeAssigned with
  | none => .error (.unboundLocalError "dtype")
  | some dtype =>
    if dtype == "pandas" then
      match y with
      | .pandas h d => .ok (.table h d)
      | _ => .error (.attributeError "columns")
    else if dtype == "numpy" || dtype == "array" then
      match (if dtype == "numpy" then
               match y with
               | .ndarray d => Except.ok (d, true)
               | _ => Except.error (PyError.attributeError "tolist")
             else
               match y with
               | .list d => Except.ok (d, true)
               | .ndarray d => Except.ok (d, false)
               | _ => Except.error (PyError.typeError "object of this shape has no len()")) with
      | .error e => .error e
      | .ok (yl, rowsAreLists) =>
        let yl :=
          if yl.isEmpty || !(rowsAreLists && (yl.head?.getD (.n 0)).isLst) then
            [Cell.lst yl]
          else yl
        .ok (.dataOnly yl)
    else
      .error (.valueError (dataframeUnknownTypeMsg type))

/-- Does the string `hay` contain `needle` as a contiguous substring?
Used to state that an error message names a set of accepted values. -/
def strHasSub (hay needle : String) : Bool :=
  hay.data.tails.any fun t => needle.data.isPrefixOf t

/-! ## Properties of the stable descending sort used by `Label` -/

/-- Inserting an entry and then keeping one score class is the same as
keeping the score class and appending the entry when it belongs to the
class: `orderedInsert` skips only entries of strictly larger score, so it
never jumps over an entry of equal score. -/
theorem orderedInsert_filter_score (s : ℚ) (p : String × ℚ) :
    ∀ l : List (String × ℚ),
      (List.orderedInsert scoreDesc p l).filter (fun q => q.2 == s) =
        if p.2 = s then p :: l.filter (fun q => q.2 == s)
        else l.filter (fun q => q.2 == s)
  | [] => by
    by_cases hp : p.2 = s <;> simp [hp]
  | b :: t => by
    rw [List.orderedInsert]
    by_cases hr : scoreDesc p b
    · rw [if_pos hr]
      by_cases hp : p.2 = s <;> simp [List.filter_cons, hp]
    · rw [if_neg hr]
      have ih := orderedInsert_filter_score s p t
      by_cases hb : b.2 = s
      · have hps : ¬p.2 = s := by
          intro hp
          exact hr (le_of_eq (hb.trans hp.symm))
        simp [List.filter_cons, hb, hps, ih]
      · by_cases hp : p.2 = s <;>
          simp [List.filter_cons, hb, hp, ih]

/-- Stability of the modelled sort, phrased per score class: filtering the
sorted list to one score keeps exactly the original subsequence of entries
with that score (so ties keep their original relative order). -/
theorem insertionSort_filter_score (s : ℚ) :
    ∀ m : List (String × ℚ),
      (List.insertionSort scoreDesc m).filter (fun q => q.2 == s) =
        m.filter (fun q => q.2 == s)
  | [] => rfl
  | p :: t => by
    rw [List.insertionSort, orderedInsert_filter_score,
      insertionSort_filter_score s t]
    by_cases hp : p.2 = s <;> simp [List.filter_cons, hp]

/-- The head of the sorted list is the earliest entry of maximal score. -/
theorem insertionSort_head_firstMax :
    ∀ m : List (String × ℚ),
      (List.insertionSort scoreDesc m).head? = firstMaxEntry m
  | [] => rfl
  | p :: t => by
    rw [List.insertionSort, firstMaxEntry]
    have ih := insertionSort_head_firstMax t
    cases hS : List.insertionSort scoreDesc t with
    | nil =>
      rw [hS] at ih
      rw [← ih]
      simp
    | cons q rest =>
      rw [hS] at ih
      rw [← ih]
      rw [List.orderedInsert]
      by_cases hr : scoreDesc p q
      · rw [if_pos hr]
        have : ¬q.2 > p.2 := not_lt.mpr hr
        simp [this]
      · rw [if_neg hr]
        have : q.2 > p.2 := lt_of_not_le hr
        simp [this]

/-- The head of a nonzero-length truncation is the head of the list. -/
theorem head?_take_of_ne_zero {α : Type} (l : List α) (k : ℕ) (hk : k ≠ 0) :
    (l.take k).head? = l.head? := by
  cases l <;> cases k <;> simp_all

/-- Core behaviour of the `confidences` branch of `Label.postprocess` on a
non-empty mapping with a truncation bound that is unset or positive. -/
theorem labelConfidencesBranch_eq (m : List (String × ℚ)) (ntc : Option Nat)
    (hm : m ≠ []) (hntc : ntc ≠ some 0) :
    ∃ fm : String × ℚ,
      firstMaxEntry m = some fm ∧
      labelConfidencesBranch ntc m =
        .ok (.confidences fm.1
          ((List.insertionSort scoreDesc m).take (ntc.getD m.length))) := by
  cases hS : List.insertionSort scoreDesc m with
  | nil =>
    have hlen : m.length = 0 := by
      have h := List.length_insertionSort scoreDesc m
      rw [hS] at h
      simpa using h.symm
    exact absurd (List.eq_nil_of_length_eq_zero hlen) hm
  | cons fm rest =>
    refine ⟨fm, ?_, ?_⟩
    · rw [← insertionSort_head_firstMax, hS]
      rfl
    · unfold labelConfidencesBranch
      cases ntc with
      | none =>
        rw [hS]
        simp only [Option.getD]
        rw [show m.length = (List.insertionSort scoreDesc m).length by
              rw [List.length_insertionSort],
          hS, List.take_length]
      | some k =>
        cases k with
        | zero => exact absurd rfl hntc
        | succ k =>
          rw [hS]
          simp only [Option.getD, List.take_succ_cons]

/-- For both type strings that reach it, `Label.postprocess` on a dict is
exactly the `confidences` branch. -/
theorem label_postprocess_dict_eq (ntc : Option Nat) (ty : String)
    (hty : ty = "confidences" ∨ ty = "auto") (m : List (String × ℚ)) :
    Label.postprocess ntc ty (.dict m) = labelConfidencesBranch ntc m := by
  rcases hty with rfl | rfl <;> rfl

/-- C1 (amended).  For every *non-empty* mapping `m` and `num_top_classes`
either unset or at least 1, `Label.postprocess` with type `"confidences"` or
`"auto"` returns a wire value whose label is the key of `m` with the maximal
score (the first such key in iteration order on ties, witnessed by
`firstMaxEntry`), and whose confidences list is the entries of `m` sorted
descending by score by a stable sort (a permutation of `m`, pairwise
descending, and filtering any one score value recovers the original
subsequence of `m`), truncated to `num_top_classes` when set, with length
`min (len m) (num_top_classes or len m)`.  The un-amended claim additionally
covers `m = []` and `num_top_classes = 0`, where the code instead raises
`IndexError` (see the counterexample and C10). -/
theorem label_confidences_sorted_spec (m : List (String × ℚ)) (ntc : Option Nat)
    (ty : String) (hm : m ≠ []) (hntc : ntc ≠ some 0)
    (hty : ty = "confidences" ∨ ty = "auto") :
    ∃ (sorted : List (String × ℚ)) (fm : String × ℚ),
      firstMaxEntry m = some fm ∧
      sorted.Perm m ∧
      List.Sorted scoreDesc sorted ∧
      (∀ s : ℚ, sorted.filter (fun q => q.2 == s) = m.filter (fun q => q.2 == s)) ∧
      Label.postprocess ntc ty (.dict m) =
        .ok (.confidences fm.1 (sorted.take (ntc.getD m.length))) ∧
      (sorted.take (ntc.getD m.length)).length = min m.length (ntc.getD m.length) := by
  obtain ⟨fm, hfm, heq⟩ := labelConfidencesBranch_eq m ntc hm hntc
  refine ⟨List.insertionSort scoreDesc m, fm, hfm,
    List.perm_insertionSort scoreDesc m,
    List.sorted_insertionSort scoreDesc m,
    fun s => insertionSort_filter_score s m, ?_, ?_⟩
  · rw [label_postprocess_dict_eq ntc ty hty m, heq]
  · rw [List.length_take, List.length_insertionSort, Nat.min_comm]

/-- Witness for C1 (amended) at the spec's own example scenario
`Label(num_top_classes=2).postprocess({"cat": 0.2, "dog": 0.7, "bird": 0.1})`. -/
theorem label_confidences_sorted_spec_witness :
    ∃ (sorted : List (String × ℚ)) (fm : String × ℚ),
      firstMaxEntry [("cat", (2 : ℚ)/10), ("dog", (7 : ℚ)/10), ("bird", (1 : ℚ)/10)] = some fm ∧
      sorted.Perm [("cat", (2 : ℚ)/10), ("dog", (7 : ℚ)/10), ("bird", (1 : ℚ)/10)] ∧
      List.Sorted scoreDesc sorted ∧
      (∀ s : ℚ, sorted.filter (fun q => q.2 == s) =
        [("cat", (2 : ℚ)/10), ("dog", (7 : ℚ)/10), ("bird", (1 : ℚ)/10)].filter
          (fun q => q.2 == s)) ∧
      Label.postprocess (some 2) "auto"
          (.dict [("cat", (2 : ℚ)/10), ("dog", (7 : ℚ)/10), ("bird", (1 : ℚ)/10)]) =
        .ok (.confidences fm.1 (sorted.take ((some 2).getD
          [("cat", (2 : ℚ)/10), ("dog", (7 : ℚ)/10), ("bird", (1 : ℚ)/10)].length))) ∧
      (sorted.take ((some 2).getD
          [("cat", (2 : ℚ)/10), ("dog", (7 : ℚ)/10), ("bird", (1 : ℚ)/10)].length)).length =
        min [("cat", (2 : ℚ)/10), ("dog", (7 : ℚ)/10), ("bird", (1 : ℚ)/10)].length
          ((some 2).getD [("cat", (2 : ℚ)/10), ("dog", (7 : ℚ)/10), ("bird", (1 : ℚ)/10)].length) :=
  label_confidences_sorted_spec
    [("cat", (2 : ℚ)/10), ("dog", (7 : ℚ)/10), ("bird", (1 : ℚ)/10)]
    (some 2) "auto" (by decide) (by decide) (Or.inr rfl)

/-- Counterexample to C1 as stated: with `num_top_classes = 0` (a set value)
and the non-empty mapping `{"a": 1}`, the claim promises a wire value with
confidences of length `min(1, 0 or 1) = 1`, but the code truncates the
sorted list to `[]` *before* reading its first element and raises
`IndexError`: no wire value is returned. -/
theorem label_confidences_top0_counterexample :
    Label.postprocess (some 0) "confidences" (.dict [("a", (1 : ℚ))]) =
      .error .indexError := rfl

/-- C10.  For the empty mapping, `Label.postprocess` with type
`"confidences"` or `"auto"` (for every `num_top_classes` configuration) does
not return a wire value: the sorted prediction list is empty and reading its
first entry raises `IndexError`. -/
theorem label_empty_dict_index_error (ntc : Option Nat) :
    Label.postprocess ntc "confidences" (.dict []) = .error .indexError ∧
    Label.postprocess ntc "auto" (.dict []) = .error .indexError := by
  have h : labelConfidencesBranch ntc [] = .error .indexError := by
    cases ntc with
    | none => rfl
    | some k => cases k <;> rfl
  exact ⟨(label_postprocess_dict_eq ntc "confidences" (Or.inl rfl) []).trans h,
    (label_postprocess_dict_eq ntc "auto" (Or.inr rfl) []).trans h⟩

/-! ## Auto-detection versus explicit type (C2, C3) -/

/-- Counterexample to C2 as stated: for Textbox, `type="auto"` on the number
`3` passes the number through unchanged, while explicit `type="number"`
renders its decimal string form — the two wire values differ (a number
versus a string). -/
theorem textbox_auto_number_counterexample :
    (Textbox.postprocess "auto" (.num 3) == Textbox.postprocess "number" (.num 3)) =
      false := by decide

/-- C2 (amended).  For Label, Image, Audio and Dataframe, `postprocess` with
type `"auto"` on each documented accepted value shape returns the same wire
value (and, for Audio, the same event trace in both the raising and
non-raising encoder runs) as `postprocess` with the corresponding explicit
type on the same value.  For Textbox, `"auto"` on a string agrees with
explicit `"str"`, but `"auto"` on a number returns the number unchanged
whereas explicit `"number"` returns its decimal string form, so the claim's
"in particular" case fails (see the counterexample). -/
theorem auto_type_matches_explicit_spec :
    (∀ s : String, Textbox.postprocess "auto" (.str s) = Textbox.postprocess "str" (.str s)) ∧
    (∀ q : ℚ, Textbox.postprocess "auto" (.num q) = .ok (.num q)) ∧
    (∀ q : ℚ, Textbox.postprocess "number" (.num q) = .ok (.str (pyNumStr q))) ∧
    (∀ (ntc : Option Nat) (s : String),
      Label.postprocess ntc "auto" (.str s) = Label.postprocess ntc "label" (.str s)) ∧
    (∀ (ntc : Option Nat) (q : ℚ),
      Label.postprocess ntc "auto" (.num q) = Label.postprocess ntc "label" (.num q)) ∧
    (∀ (ntc : Option Nat) (m : List (String × ℚ)),
      Label.postprocess ntc "auto" (.dict m) = Label.postprocess ntc "confidences" (.dict m)) ∧
    (∀ a : NpArr, Image.postprocess "auto" (.ndarray a) = Image.postprocess "numpy" (.ndarray a)) ∧
    (∀ i : Nat, Image.postprocess "auto" (.pilImage i) = Image.postprocess "pil" (.pilImage i)) ∧
    (∀ s : String, Image.postprocess "auto" (.strVal s) = Image.postprocess "file" (.strVal s)) ∧
    (∀ p : String, Image.postprocess "auto" (.moduleVal p) = Image.postprocess "plot" (.moduleVal p)) ∧
    (∀ (sr : Int) (n : Nat) (tmp : String) (b : Bool),
      Audio.postprocessTr "auto" (.tuple sr n) tmp b =
        Audio.postprocessTr "numpy" (.tuple sr n) tmp b) ∧
    (∀ (s tmp : String) (b : Bool),
      Audio.postprocessTr "auto" (.strPath s) tmp b =
        Audio.postprocessTr "file" (.strPath s) tmp b) ∧
    (∀ (h : List String) (d : List (List Cell)),
      Dataframe.postprocess "auto" (.pandas h d) = Dataframe.postprocess "pandas" (.pandas h d)) ∧
    (∀ d : List Cell,
      Dataframe.postprocess "auto" (.ndarray d) = Dataframe.postprocess "numpy" (.ndarray d)) ∧
    (∀ d : List Cell,
      Dataframe.postprocess "auto" (.list d) = Dataframe.postprocess "array" (.list d)) :=
  ⟨fun _ => rfl, fun _ => rfl, fun _ => rfl, fun _ _ => rfl, fun _ _ => rfl,
    fun _ _ => rfl, fun _ => rfl, fun _ => rfl, fun _ => rfl, fun _ => rfl,
    fun _ _ _ _ => rfl, fun _ _ _ => rfl, fun _ _ => rfl, fun _ => rfl, fun _ => rfl⟩

/-- C3.  Where the claim (and the spec's error-handling design) promises an
"unsupported value shape" error naming the accepted shapes when no `"auto"`
shape predicate matches, the code of `Image.postprocess` and
`Dataframe.postprocess` instead reads the never-assigned local `dtype` and
raises `UnboundLocalError` (whose message names no shapes), and
`Audio.postprocess` performs no shape check at all: an unmatched value is
passed straight to the external file encoder as if it were a file path. -/
theorem auto_unmatched_unbound_local :
    Image.postprocess "auto" (.otherVal "42") = .error (.unboundLocalError "dtype") ∧
    Dataframe.postprocess "auto" (.other "42") = .error (.unboundLocalError "dtype") ∧
    (∀ tmp : String, Audio.postprocess "auto" (.other "42") tmp =
      .ok (.encodedFile (.other "42") "audio" "wav")) :=
  ⟨rfl, rfl, fun _ => rfl⟩

/-! ## Dataframe 1D wrap (C4) and KeyValues (C5) -/

/-- C4.  On the `"array"` and `"auto"` paths of `Dataframe.postprocess`, a
flat 1D list (empty, or whose first element is not a list) is wrapped as a
single row, `{"data": [l]}`, while an already-nested 2D list is emitted
unchanged as `{"data": l}`. -/
theorem dataframe_array_wrap_spec (ty : String) (l : List Cell)
    (hty : ty = "array" ∨ ty = "auto") :
    ((l.isEmpty || !(l.head?.getD (.n 0)).isLst) = true →
      Dataframe.postprocess ty (.list l) = .ok (.dataOnly [Cell.lst l])) ∧
    (l.all Cell.isLst = true → l ≠ [] →
      Dataframe.postprocess ty (.list l) = .ok (.dataOnly l)) := by
  have hred : Dataframe.postprocess ty (.list l) =
      .ok (.dataOnly
        (if l.isEmpty || !(true && (l.head?.getD (Cell.n 0)).isLst)
         then [Cell.lst l] else l)) := by
    rcases hty with rfl | rfl <;> rfl
  rw [hred]
  constructor
  · intro h
    rw [if_pos]
    simpa using h
  · intro hall hne
    rw [if_neg]
    cases l with
    | nil => exact absurd rfl hne
    | cons c rest =>
      have hc : c.isLst = true := by
        have := List.all_eq_true.mp hall c (List.mem_cons_self c rest)
        exact this
      simp [hc]

/-- Witness for C4: the spec's example `Dataframe().postprocess([1, 2, 3])`
is wrapped into one row, and a nested 2D list passes through unchanged. -/
theorem dataframe_array_wrap_spec_witness :
    Dataframe.postprocess "auto" (.list [Cell.n 1, Cell.n 2, Cell.n 3]) =
      .ok (.dataOnly [Cell.lst [Cell.n 1, Cell.n 2, Cell.n 3]]) ∧
    Dataframe.postprocess "array" (.list [Cell.lst [Cell.n 1], Cell.lst [Cell.n 2]]) =
      .ok (.dataOnly [Cell.lst [Cell.n 1], Cell.lst [Cell.n 2]]) :=
  ⟨(dataframe_array_wrap_spec "auto" [Cell.n 1, Cell.n 2, Cell.n 3] (Or.inr rfl)).1 rfl,
   (dataframe_array_wrap_spec "array" [Cell.lst [Cell.n 1], Cell.lst [Cell.n 2]]
      (Or.inl rfl)).2 rfl (List.cons_ne_nil _ _)⟩

/-- C5.  `KeyValues.postprocess` maps a mapping to the list of its
(key, value) pairs in iteration order, returns list input unchanged, and for
any other shape fails with its descriptive `ValueError` (whose message
describes the expected dictionary shape). -/
theorem keyvalues_postprocess_spec :
    (∀ m, KeyValues.postprocess (.dict m) = .ok m) ∧
    (∀ l, KeyValues.postprocess (.list l) = .ok l) ∧
    (∀ o, KeyValues.postprocess (.other o) = .error (.valueError kvErrorMsg)) ∧
    strHasSub kvErrorMsg "dictionary" = true ∧
    strHasSub kvErrorMsg "labels" = true :=
  ⟨fun _ => rfl, fun _ => rfl, fun _ => rfl, by decide, by decide⟩

/-! ## Unknown explicit type (C6) -/

/-- `strHasSub` decides substring containment. -/
theorem strHasSub_iff {hay needle : String} :
    strHasSub hay needle = true ↔ needle.data <:+: hay.data := by
  unfold strHasSub
  rw [List.any_eq_true]
  constructor
  · rintro ⟨t, ht, hp⟩
    exact List.infix_iff_prefix_suffix.mpr
      ⟨t, List.isPrefixOf_iff_prefix.mp hp, (List.mem_tails _ _).mp ht⟩
  · intro hinf
    obtain ⟨t, hpre, hsuf⟩ := List.infix_iff_prefix_suffix.mp hinf
    exact ⟨t, (List.mem_tails _ _).mpr hsuf, List.isPrefixOf_iff_prefix.mpr hpre⟩

/-- A substring of `suf` is a substring of `pre ++ mid ++ suf`; used to lift
a (decided) containment in the constant tail of an error message over the
interpolated unknown type name. -/
theorem strHasSub_append_three (pre mid suf needle : String)
    (h : strHasSub suf needle = true) :
    strHasSub (pre ++ mid ++ suf) needle = true := by
  rw [strHasSub_iff] at h ⊢
  obtain ⟨s, t, hst⟩ := h
  refine ⟨(pre ++ mid).data ++ s, t, ?_⟩
  simp only [String.data_append, ← hst, List.append_assoc]

/-- C6 (amended).  For every type string outside a component's documented
values, `postprocess` always fails with a `ValueError` rather than silently
defaulting, for all of Textbox, Label, Image, Audio and Dataframe (and for
every input value).  For Textbox, Image, Audio and Dataframe the failure
message enumerates the valid explicit type values (each appears quoted in
the message); for Label the message instead describes the accepted *value
shapes* and does not enumerate its type values `'label'`, `'confidences'`,
`'auto'` (see the counterexample). -/
theorem unknown_type_error_spec (ty : String) :
    (ty ∉ (["auto", "str", "number"] : List String) → ∀ y,
      Textbox.postprocess ty y = .error (.valueError (textboxUnknownTypeMsg ty)) ∧
      strHasSub (textboxUnknownTypeMsg ty) "'str'" = true ∧
      strHasSub (textboxUnknownTypeMsg ty) "'number'" = true) ∧
    (ty ∉ (["auto", "label", "confidences"] : List String) → ∀ ntc y,
      Label.postprocess ntc ty y = .error (.valueError labelShapeErrorMsg) ∧
      strHasSub labelShapeErrorMsg "'label'" = false ∧
      strHasSub labelShapeErrorMsg "'confidences'" = false ∧
      strHasSub labelShapeErrorMsg "auto" = false) ∧
    (ty ∉ (["auto", "numpy", "pil", "file", "plot"] : List String) → ∀ y,
      Image.postprocess ty y = .error (.valueError (imageUnknownTypeMsg ty)) ∧
      strHasSub (imageUnknownTypeMsg ty) "'numpy'" = true ∧
      strHasSub (imageUnknownTypeMsg ty) "'pil'" = true ∧
      strHasSub (imageUnknownTypeMsg ty) "'file'" = true ∧
      strHasSub (imageUnknownTypeMsg ty) "'plot'" = true) ∧
    (ty ∉ (["numpy", "file", "auto"] : List String) → ∀ y tmp b,
      Audio.postprocessTr ty y tmp b =
        (.error (.valueError (audioUnknownTypeMsg ty)), []) ∧
      strHasSub (audioUnknownTypeMsg ty) "'numpy'" = true ∧
      strHasSub (audioUnknownTypeMsg ty) "'file'" = true) ∧
    (ty ∉ (["auto", "pandas", "numpy", "array"] : List String) → ∀ y,
      Dataframe.postprocess ty y = .error (.valueError (dataframeUnknownTypeMsg ty)) ∧
      strHasSub (dataframeUnknownTypeMsg ty) "'pandas'" = true ∧
      strHasSub (dataframeUnknownTypeMsg ty) "'numpy'" = true ∧
      strHasSub (dataframeUnknownTypeMsg ty) "'array'" = true) := by
  refine ⟨?_, ?_, ?_, ?_, ?_⟩
  · intro h y
    obtain ⟨h1, h2, h3⟩ : ¬ty = "auto" ∧ ¬ty = "str" ∧ ¬ty = "number" := by
      simpa [not_or] using h
    refine ⟨?_, strHasSub_append_three _ _ _ _ (by decide),
      strHasSub_append_three _ _ _ _ (by decide)⟩
    simp [Textbox.postprocess, beq_eq_false_iff_ne.mpr h1,
      beq_eq_false_iff_ne.mpr h2, beq_eq_false_iff_ne.mpr h3]
  · intro h ntc y
    obtain ⟨h1, h2, h3⟩ : ¬ty = "auto" ∧ ¬ty = "label" ∧ ¬ty = "confidences" := by
      simpa [not_or] using h
    refine ⟨?_, by decide, by decide, by decide⟩
    simp [Label.postprocess, beq_eq_false_iff_ne.mpr h1,
      beq_eq_false_iff_ne.mpr h2, beq_eq_false_iff_ne.mpr h3]
  · intro h y
    obtain ⟨h1, h2, h3, h4, h5⟩ :
        ¬ty = "auto" ∧ ¬ty = "numpy" ∧ ¬ty = "pil" ∧ ¬ty = "file" ∧ ¬ty = "plot" := by
      simpa [not_or] using h
    refine ⟨?_, strHasSub_append_three _ _ _ _ (by decide),
      strHasSub_append_three _ _ _ _ (by decide),
      strHasSub_append_three _ _ _ _ (by decide),
      strHasSub_append_three _ _ _ _ (by decide)⟩
    simp [Image.postprocess, beq_eq_false_iff_ne.mpr h1,
      beq_eq_false_iff_ne.mpr h2, beq_eq_false_iff_ne.mpr h3,
      beq_eq_false_iff_ne.mpr h4, beq_eq_false_iff_ne.mpr h5]
  · intro h y tmp b
    obtain ⟨h1, h2, h3⟩ : ¬ty = "numpy" ∧ ¬ty = "file" ∧ ¬ty = "auto" := by
      simpa [not_or] using h
    refine ⟨?_, strHasSub_append_three _ _ _ _ (by decide),
      strHasSub_append_three _ _ _ _ (by decide)⟩
    simp [Audio.postprocessTr, beq_eq_false_iff_ne.mpr h1,
      beq_eq_false_iff_ne.mpr h2, beq_eq_false_iff_ne.mpr h3]
  · intro h y
    obtain ⟨h1, h2, h3, h4⟩ :
        ¬ty = "auto" ∧ ¬ty = "pandas" ∧ ¬ty = "numpy" ∧ ¬ty = "array" := by
      simpa [not_or] using h
    refine ⟨?_, strHasSub_append_three _ _ _ _ (by decide),
      strHasSub_append_three _ _ _ _ (by decide),
      strHasSub_append_three _ _ _ _ (by decide)⟩
    simp [Dataframe.postprocess, beq_eq_false_iff_ne.mpr h1,
      beq_eq_false_iff_ne.mpr h2, beq_eq_false_iff_ne.mpr h3,
      beq_eq_false_iff_ne.mpr h4]

/-- Witness for C6 (amended) at the unknown explicit type `"gif"`. -/
theorem unknown_type_error_spec_witness :
    Textbox.postprocess "gif" (.str "x") = .error (.valueError (textboxUnknownTypeMsg "gif")) ∧
    Label.postprocess none "gif" (.str "x") = .error (.valueError labelShapeErrorMsg) ∧
    Image.postprocess "gif" (.strVal "f.png") = .error (.valueError (imageUnknownTypeMsg "gif")) ∧
    Audio.postprocessTr "gif" (.strPath "f.wav") "tmp" false =
      (.error (.valueError (audioUnknownTypeMsg "gif")), []) ∧
    Dataframe.postprocess "gif" (.list []) = .error (.valueError (dataframeUnknownTypeMsg "gif")) :=
  ⟨((unknown_type_error_spec "gif").1 (by decide) (.str "x")).1,
   ((unknown_type_error_spec "gif").2.1 (by decide) none (.str "x")).1,
   ((unknown_type_error_spec "gif").2.2.1 (by decide) (.strVal "f.png")).1,
   ((unknown_type_error_spec "gif").2.2.2.1 (by decide) (.strPath "f.wav") "tmp" false).1,
   ((unknown_type_error_spec "gif").2.2.2.2 (by decide) (.list [])).1⟩

/-- Counterexample to C6 as stated: Label with unknown explicit type
`"foo"` does fail, but its failure message does not enumerate the valid type
values — none of `'label'`, `'confidences'` (quoted, as the other
components' messages quote their choices) nor even the bare word `auto`
occurs in it; the message describes the accepted value shapes instead. -/
theorem label_unknown_type_message_counterexample :
    Label.postprocess none "foo" (.num 3) = .error (.valueError labelShapeErrorMsg) ∧
    strHasSub labelShapeErrorMsg "'label'" = false ∧
    strHasSub labelShapeErrorMsg "'confidences'" = false ∧
    strHasSub labelShapeErrorMsg "auto" = false :=
  ⟨rfl, by decide, by decide, by decide⟩

/-! ## Image.rebuild (C7) and the Audio temporary file (C9) -/

/-- C7.  For every directory, base64 payload and current timestamp,
`Image.rebuild` saves the decoded image in PNG format at
`dir/output_<YYYY-MM-DD-HH-MM-SS>.png` (the name embedding the timestamp at
second precision) and returns that filename alone — the returned string is
strictly shorter than the full path it was saved under, so it is the
bare filename relative to `dir`, never the full path. -/
theorem image_rebuild_spec (dir data : String) (t : Timestamp) :
    (Image.rebuild dir data t).2 = "output_" ++ strftimeYmdHMS t ++ ".png" ∧
    (Image.rebuild dir data t).1.path = dir ++ "/" ++ (Image.rebuild dir data t).2 ∧
    (Image.rebuild dir data t).1.format = "PNG" ∧
    (Image.rebuild dir data t).1.content = .ofBase64 data ∧
    (Image.rebuild dir data t).2.length < (Image.rebuild dir data t).1.path.length := by
  refine ⟨rfl, rfl, rfl, rfl, ?_⟩
  show ("output_" ++ strftimeYmdHMS t ++ ".png").length <
    (dir ++ "/" ++ ("output_" ++ strftimeYmdHMS t ++ ".png")).length
  simp [String.length_append]
  right
  decide

/-- C9.  On the numpy path of `Audio.postprocess` (explicit `"numpy"`, or
`"auto"` with a tuple value), the code acquires a `NamedTemporaryFile` and
writes the WAV data to it, but the event trace of the call contains no close
or delete of that file on *any* exit path — in particular not when the
base64-encoding step raises (`b = true`).  Deletion is left to the
interpreter's finalizer instead of a scoped acquire/use/release block, so
the claimed guarantee does not hold in the code. -/
theorem audio_tempfile_no_cleanup (tmp : String) (sr : Int) (n : Nat) (b : Bool) :
    ((.acquireTempFile tmp) ∈ (Audio.postprocessTr "numpy" (.tuple sr n) tmp b).2 ∧
      (Audio.postprocessTr "numpy" (.tuple sr n) tmp b).2.all
        (fun e => !e.isCleanup) = true) ∧
    ((.acquireTempFile tmp) ∈ (Audio.postprocessTr "auto" (.tuple sr n) tmp b).2 ∧
      (Audio.postprocessTr "auto" (.tuple sr n) tmp b).2.all
        (fun e => !e.isCleanup) = true) := by
  cases b <;> exact ⟨⟨List.mem_cons_self _ _, rfl⟩, ⟨List.mem_cons_self _ _, rfl⟩⟩

/-! ## JSON double-encoding round trip (C8) -/

/-- A `Char`'s code point is a Unicode scalar value: below the surrogate
range, or above it and below `0x110000`. -/
theorem char_toNat_valid (c : Char) :
    c.toNat < 55296 ∨ (57343 < c.toNat ∧ c.toNat < 1114112) := by
  rcases c.valid with h | ⟨h1, h2⟩
  · exact Or.inl h
  · exact Or.inr ⟨h1, h2⟩

/-- Reading back a hex digit. -/
theorem hexDigitVal_hexDigit (k : Nat) (h : k < 16) :
    hexDigitVal (hexDigit k) = some k := by
  interval_cases k <;> rfl

/-- Reading back four hex digits of a value below `0x10000`. -/
theorem hex4Val_hex4 (n : Nat) (h : n < 65536) :
    hex4Val (hexDigit (n / 4096 % 16)) (hexDigit (n / 256 % 16))
      (hexDigit (n / 16 % 16)) (hexDigit (n % 16)) = some n := by
  have e1 := hexDigitVal_hexDigit (n / 4096 % 16) (by omega)
  have e2 := hexDigitVal_hexDigit (n / 256 % 16) (by omega)
  have e3 := hexDigitVal_hexDigit (n / 16 % 16) (by omega)
  have e4 := hexDigitVal_hexDigit (n % 16) (by omega)
  unfold hex4Val
  rw [e1, e2, e3, e4]
  simp only [Option.some.injEq]
  omega

/-- Reading back four emitted hex digits of a value below `0x10000`. -/
theorem jsonParseHex4_hex4 (v : Nat) (h : v < 65536) (rest : List Char) :
    jsonParseHex4 (hex4 v ++ rest) = some (v, rest) := by
  show (hex4Val (hexDigit (v / 4096 % 16)) (hexDigit (v / 256 % 16))
      (hexDigit (v / 16 % 16)) (hexDigit (v % 16))).map (fun w => (w, rest)) =
    some (v, rest)
  rw [hex4Val_hex4 v h]
  rfl

/-- Parsing one unit undoes one character escape, whatever follows. -/
theorem jsonParseUnit_escape (c : Char) (rest : List Char) :
    jsonParseUnit (jsonEscapeChar c ++ rest) = some (c, rest) := by
  have hval := char_toNat_valid c
  unfold jsonEscapeChar
  split_ifs with h1 h2 h3 h4 h5 h6 h7 h8 h9
  · subst h1; rfl
  · subst h2; rfl
  · subst h3; rfl
  · subst h4; rfl
  · subst h5; rfl
  · have hc : c = Char.ofNat 8 := by
      rw [← h6, Char.ofNat_toNat]
    subst hc; rfl
  · have hc : c = Char.ofNat 12 := by
      rw [← h7, Char.ofNat_toNat]
    subst hc; rfl
  · simp only [List.cons_append, List.nil_append, jsonParseUnit]
    rw [if_neg h1, if_neg h2]
  · show jsonParseUHex (hex4 c.toNat ++ rest) = some (c, rest)
    unfold jsonParseUHex
    rw [jsonParseHex4_hex4 c.toNat h9]
    dsimp only
    rw [if_neg (by omega), if_neg (by omega), Char.ofNat_toNat]
  · have hge : 65536 ≤ c.toNat := by omega
    have hlt : c.toNat < 1114112 := by omega
    obtain ⟨q, hq⟩ : ∃ q, (c.toNat - 65536) / 1024 = q := ⟨_, rfl⟩
    obtain ⟨r, hr⟩ : ∃ r, (c.toNat - 65536) % 1024 = r := ⟨_, rfl⟩
    rw [hq, hr]
    show jsonParseUHex (hex4 (55296 + q) ++ ('\\' :: 'u' :: hex4 (56320 + r) ++ rest)) =
      some (c, rest)
    unfold jsonParseUHex
    rw [jsonParseHex4_hex4 (55296 + q) (by omega)]
    dsimp only
    rw [if_pos (by omega)]
    rw [show jsonParseLowSurrogate (('\\' :: 'u' :: hex4 (56320 + r)) ++ rest) =
        jsonParseHex4 (hex4 (56320 + r) ++ rest) from rfl]
    rw [jsonParseHex4_hex4 (56320 + r) (by omega)]
    dsimp only
    rw [if_pos (by omega)]
    have harith : (55296 + q - 55296) * 1024 + (56320 + r - 56320) + 65536 = c.toNat := by
      omega
    rw [harith, Char.ofNat_toNat]

/-- The escape sequence of a character is non-empty and never starts with a
quote. -/
theorem jsonEscapeChar_head (c : Char) :
    ∃ (h0 : Char) (t0 : List Char),
      jsonEscapeChar c = h0 :: t0 ∧ ¬h0 = '"' := by
  unfold jsonEscapeChar
  split_ifs with h1 h2 h3 h4 h5 h6 h7 h8 h9
  · exact ⟨'\\', _, rfl, by decide⟩
  · exact ⟨'\\', _, rfl, by decide⟩
  · exact ⟨'\\', _, rfl, by decide⟩
  · exact ⟨'\\', _, rfl, by decide⟩
  · exact ⟨'\\', _, rfl, by decide⟩
  · exact ⟨'\\', _, rfl, by decide⟩
  · exact ⟨'\\', _, rfl, by decide⟩
  · exact ⟨c, [], rfl, h1⟩
  · exact ⟨'\\', _, rfl, by decide⟩
  · exact ⟨'\\', _, rfl, by decide⟩

/-- One decoder step undoes one escape and spends one unit of fuel. -/
theorem jsonDecodeBodyGo_step (fuel : Nat) (c : Char) (rest : List Char) :
    jsonDecodeBodyGo (fuel + 1) (jsonEscapeChar c ++ rest) =
      (jsonDecodeBodyGo fuel rest).map (c :: ·) := by
  obtain ⟨h0, t0, heq, hne⟩ := jsonEscapeChar_head c
  have hunit : jsonParseUnit (h0 :: (t0 ++ rest)) = some (c, rest) := by
    rw [← List.cons_append, ← heq]
    exact jsonParseUnit_escape c rest
  rw [heq, List.cons_append]
  simp only [jsonDecodeBodyGo]
  rw [if_neg hne, hunit]

/-- Escaping never shortens: the body has at least one character per input
character (each escape is non-empty). -/
theorem length_le_jsonEscapeBody (l : List Char) :
    l.length ≤ (jsonEscapeBody l).length := by
  induction l with
  | nil => simp [jsonEscapeBody]
  | cons c t ih =>
    obtain ⟨h0, t0, heq, _⟩ := jsonEscapeChar_head c
    rw [jsonEscapeBody, List.length_append, heq]
    simp only [List.length_cons]
    omega

/-- Decoding the escaped body followed by the closing quote recovers the
original characters, for any fuel exceeding the character count. -/
theorem jsonDecodeBodyGo_escapeBody (l : List Char) :
    ∀ fuel : Nat, l.length < fuel →
      jsonDecodeBodyGo fuel (jsonEscapeBody l ++ ['"']) = some l := by
  induction l with
  | nil =>
    intro fuel hf
    cases fuel with
    | zero => omega
    | succ f => rfl
  | cons c t ih =>
    intro fuel hf
    cases fuel with
    | zero => omega
    | succ f =>
      rw [jsonEscapeBody, List.append_assoc, jsonDecodeBodyGo_step,
        ih f (by simp at hf; omega)]
      rfl

/-- C8.  `JSON.postprocess` re-encodes every string input as a JSON string
literal via `json.dumps` (double-encoding: the decoder of JSON string
literals recovers exactly the original string, so the result is a
well-formed literal denoting the input), and passes every non-string input
through unchanged, with no serialization attempted in this layer. -/
theorem json_postprocess_spec :
    (∀ s : String, JSON.postprocess (.str s) = .str (jsonDumpsStr s)) ∧
    (∀ s : String, jsonDecodeStringLit (jsonDumpsStr s) = some s) ∧
    (∀ t : Nat, JSON.postprocess (.other t) = .other t) := by
  refine ⟨fun _ => rfl, fun s => ?_, fun _ => rfl⟩
  show (jsonDecodeBody (jsonEscapeBody s.data ++ ['"'])).map (fun l => String.mk l) = some s
  unfold jsonDecodeBody
  rw [jsonDecodeBodyGo_escapeBody s.data _ ?bound]
  case bound =>
    have hb := length_le_jsonEscapeBody s.data
    simp only [List.length_append, List.length_cons, List.length_nil]
    omega
  rfl

end Gradio
